import Mathlib

/-!
Shallow embedding of the ashpd wallpaper option codec and of the demo
camera/screenshot page flows, with theorems about the specified
properties.

Sources embedded:
 * `src/src/desktop/wallpaper.rs` — `SetOn`, `WallpaperOptions`,
   `WallpaperOptionsBuilder` and their (de)serialization behaviour.
 * `src/ashpd-demo/src/portals/desktop/camera.rs` — `CameraPage`
   (`constructed`, `start_stream`, `stop_stream`) and the free
   function `stream`.
 * `src/ashpd-demo/src/portals/desktop/screenshot.rs` —
   `ScreenshotPage::screenshot`.
-/

namespace Ashpd

/-! ## Wallpaper option codec (`src/src/desktop/wallpaper.rs`) -/

/-- `SetOn` from wallpaper.rs: where to set the wallpaper on. -/
inductive SetOn
  | Lockscreen
  | Background
  | Both
deriving DecidableEq, Repr

/-- strum's derived `ToString` for `SetOn`: with no `strum(serialize_all)`
attribute the derive renders the variant identifier verbatim.  The
`#[serde(rename = "lowercase")]` attribute on the enum renames the *container*
(and is bypassed by the manual `Serialize` impl anyway); it does not lowercase
the variant tags. -/
def SetOn.to_string : SetOn → String
  | .Lockscreen => "Lockscreen"
  | .Background => "Background"
  | .Both => "Both"

/-- The manual `impl Serialize for SetOn`:
`String::serialize(&self.to_string(), serializer)` — i.e. the strum
`to_string` rendering is what goes on the wire. -/
def SetOn.serialize (v : SetOn) : String :=
  v.to_string

/-- Decode-side failures of the option codec. -/
inductive DecodeError
  | UnknownVariant
  | TypeMismatch
deriving DecidableEq, Repr

/-- serde's derived `Deserialize` for the fieldless enum `SetOn`: a string is
matched against the (un-renamed) variant identifiers; anything else is an
unknown-variant error. -/
def SetOn.deserialize : String → Except DecodeError SetOn
  | "Lockscreen" => .ok .Lockscreen
  | "Background" => .ok .Background
  | "Both" => .ok .Both
  | _ => .error .UnknownVariant

/-- A value inside the generic `a{sv}` option mapping: only the shapes the
wallpaper options use (booleans and strings). -/
inductive Value
  | bool (x : Bool)
  | str (x : String)
deriving DecidableEq, Repr

/-- `WallpaperOptions` from wallpaper.rs: both fields optional. -/
structure WallpaperOptions where
  show_preview : Option Bool
  set_on : Option SetOn
deriving DecidableEq, Repr

/-- `WallpaperOptionsBuilder` from wallpaper.rs. -/
structure WallpaperOptionsBuilder where
  show_preview : Option Bool := none
  set_on : Option SetOn := none
deriving DecidableEq, Repr

/-- `WallpaperOptionsBuilder::show_preview`. -/
def WallpaperOptionsBuilder.with_show_preview
    (b : WallpaperOptionsBuilder) (x : Bool) : WallpaperOptionsBuilder :=
  { b with show_preview := some x }

/-- `WallpaperOptionsBuilder::set_on`. -/
def WallpaperOptionsBuilder.with_set_on
    (b : WallpaperOptionsBuilder) (v : SetOn) : WallpaperOptionsBuilder :=
  { b with set_on := some v }

/-- `WallpaperOptionsBuilder::build`. -/
def WallpaperOptionsBuilder.build (b : WallpaperOptionsBuilder) : WallpaperOptions :=
  { set_on := b.set_on, show_preview := b.show_preview }

/-- zvariant's `SerializeDict` for `WallpaperOptions`: each field is emitted
under its `zvariant(rename)` key; a `None` field is skipped entirely (the
vardict simply has no entry for it).  The `set_on` value is serialized through
`SetOn.serialize`. -/
def WallpaperOptions.encode (o : WallpaperOptions) : List (String × Value) :=
  (match o.show_preview with
    | some x => [("show-preview", Value.bool x)]
    | none => []) ++
  (match o.set_on with
    | some v => [("set-on", Value.str v.serialize)]
    | none => [])

/-- zvariant's `DeserializeDict` for `WallpaperOptions`, processing the dict
entries in order over an accumulator whose fields all start as `None`
(the struct's `Default`): a recognized key sets its field from the entry's
value, an entry of the wrong shape is a decode error, and unknown keys are
tolerated. -/
def WallpaperOptions.decodeFrom (o : WallpaperOptions) :
    List (String × Value) → Except DecodeError WallpaperOptions
  | [] => .ok o
  | ("show-preview", Value.bool x) :: rest =>
      WallpaperOptions.decodeFrom { o with show_preview := some x } rest
  | ("show-preview", _) :: _ => .error .TypeMismatch
  | ("set-on", Value.str tag) :: rest =>
      match SetOn.deserialize tag with
      | .ok v => WallpaperOptions.decodeFrom { o with set_on := some v } rest
      | .error e => .error e
  | ("set-on", _) :: _ => .error .TypeMismatch
  | _ :: rest => WallpaperOptions.decodeFrom o rest

/-- `decode` of the generic mapping into `WallpaperOptions`. -/
def WallpaperOptions.decode (entries : List (String × Value)) :
    Except DecodeError WallpaperOptions :=
  WallpaperOptions.decodeFrom ⟨none, none⟩ entries

/-! ## Camera stream acquisition (`ashpd-demo/.../camera.rs`, fn `stream`) -/

/-- An opaque ashpd/zbus error (the demo only forwards these with `?`). -/
structure AshpdError where
  code : Nat
deriving DecidableEq, Repr

/-- The three `CameraProxy` method calls `stream` can make, in the order the
code issues them. -/
inductive CamCall
  | isCameraPresent
  | accessCamera
  | openPipeWireRemote
deriving DecidableEq, Repr

/-- The environment `stream` runs against: the outcomes the zbus connection,
the proxy constructor and each `CameraProxy` method would deliver if invoked.
`stream` is a straight-line async fn, so each field is consulted at most
once. -/
structure CameraEnv where
  connection : Except AshpdError Unit
  proxy : Except AshpdError Unit
  is_camera_present : Except AshpdError Bool
  access_camera : Except AshpdError Unit
  open_pipe_wire_remote : Except AshpdError Int

/-- `stream` from camera.rs, instrumented with the list of proxy calls it
actually performs: connect, build the proxy, check `is_camera_present`; if
present, `access_camera` then `open_pipe_wire_remote` and return `Some(fd)`;
if absent, return `Ok(None)`.  Every `?` propagates the error and stops. -/
def stream (env : CameraEnv) :
    Except AshpdError (Option Int) × List CamCall :=
  match env.connection with
  | .error e => (.error e, [])
  | .ok _ =>
    match env.proxy with
    | .error e => (.error e, [])
    | .ok _ =>
      match env.is_camera_present with
      | .error e => (.error e, [.isCameraPresent])
      | .ok false => (.ok none, [.isCameraPresent])
      | .ok true =>
        match env.access_camera with
        | .error e => (.error e, [.isCameraPresent, .accessCamera])
        | .ok _ =>
          match env.open_pipe_wire_remote with
          | .error e =>
              (.error e, [.isCameraPresent, .accessCamera, .openPipeWireRemote])
          | .ok fd =>
              (.ok (some fd),
               [.isCameraPresent, .accessCamera, .openPipeWireRemote])

/-! ## Camera page state machine (`ashpd-demo/.../camera.rs`, `CameraPage`)

The page's observable state: the enabled flags of the two installed actions,
the paintable's pipewire fd, the revealer, the availability label, plus
instrumentation (`pendingCount` counts `start_stream` continuations awaiting
`stream()`, `requestsIssued` counts `stream()` invocations begun,
`errorLogged` records a `tracing::error!`).  GTK's action semantics — the
handler of a disabled action is not run on activation — is modelled in
`CameraPage.step`. -/

structure PageState where
  startEnabled : Bool
  stopEnabled : Bool
  paintableFd : Option Int
  revealed : Bool
  cameraAvailableLabel : String
  pendingCount : Nat
  requestsIssued : Nat
  errorLogged : Bool
deriving DecidableEq, Repr

/-- `CameraPage::constructed` plus `class_init`: actions installed (enabled by
default), then `camera.stop` explicitly disabled; no stream, nothing
revealed. -/
def constructedState : PageState :=
  { startEnabled := true
    stopEnabled := false
    paintableFd := none
    revealed := false
    cameraAvailableLabel := ""
    pendingCount := 0
    requestsIssued := 0
    errorLogged := false }

/-- Modelled from the spec: `CameraPaintable::close_pipeline` (the widget's
code is not part of the provided sources) releases the held stream resource;
per the spec, closing an already-closed stream is a no-op, never an error. -/
def closePipeline (_p : Option Int) : Option Int :=
  none

/-- Modelled from the spec: `CameraPaintable::set_pipewire_fd` (the widget's
code is not part of the provided sources) hands the delivered stream resource
to the paintable, which holds it until closed. -/
def setPipewireFd (_p : Option Int) (fd : Int) : Option Int :=
  some fd

/-- `CameraPage::stop_stream`: disable `camera.stop`, enable `camera.start`,
close the paintable's pipeline, hide the revealer. -/
def stop_stream (s : PageState) : PageState :=
  { s with
      stopEnabled := false
      startEnabled := true
      paintableFd := closePipeline s.paintableFd
      revealed := false }

/-- The prefix of `CameraPage::start_stream` that runs synchronously before
`stream().await`: enable `camera.stop`, disable `camera.start`, and begin the
`stream()` call (one more broker request outstanding). -/
def start_stream_begin (s : PageState) : PageState :=
  { s with
      stopEnabled := true
      startEnabled := false
      pendingCount := s.pendingCount + 1
      requestsIssued := s.requestsIssued + 1 }

/-- The continuation of `CameraPage::start_stream` once `stream().await`
resolves: `Ok(Some(fd))` hands the fd to the paintable, reveals the child and
sets the label to "Yes"; `Ok(None)` only sets the label to "No"; `Err(_)`
logs the error and calls `stop_stream`. -/
def start_stream_resume (s : PageState)
    (r : Except AshpdError (Option Int)) : PageState :=
  match r with
  | .ok (some fd) =>
      { s with
          paintableFd := setPipewireFd s.paintableFd fd
          revealed := true
          cameraAvailableLabel := "Yes" }
  | .ok none => { s with cameraAvailableLabel := "No" }
  | .error _ => stop_stream { s with errorLogged := true }

/-- Events the page processes on the single cooperative main context:
activation of the two installed actions, and resumption of an awaiting
`start_stream` with the outcome of its `stream()` call. -/
inductive PageEvent
  | activateStart
  | activateStop
  | resolve (r : Except AshpdError (Option Int))

/-- One step of the page.  Activating a disabled action does nothing (GTK
refuses the activation, so the installed handler never runs); a `resolve`
event can only occur while some `start_stream` is awaiting. -/
def CameraPage.step (s : PageState) : PageEvent → PageState
  | .activateStart => if s.startEnabled then start_stream_begin s else s
  | .activateStop => if s.stopEnabled then stop_stream s else s
  | .resolve r =>
      if s.pendingCount = 0 then s
      else start_stream_resume { s with pendingCount := s.pendingCount - 1 } r

/-- Run the page over a sequence of events. -/
def CameraPage.run (s : PageState) : List PageEvent → PageState
  | [] => s
  | e :: es => CameraPage.run (CameraPage.step s e) es

/-- The Idle configuration of the session controller, as realised by the
page's action flags: `camera.start` is available, `camera.stop` is not. -/
abbrev IdleState (s : PageState) : Prop :=
  s.startEnabled = true ∧ s.stopEnabled = false

/-- States reachable from the freshly constructed page. -/
inductive ReachableState : PageState → Prop
  | init : ReachableState constructedState
  | next {s : PageState} (e : PageEvent) :
      ReachableState s → ReachableState (CameraPage.step s e)

/-- The run "camera unavailable": `start_stream` begins and its awaited
`stream()` call resolves with whatever `stream env` yields. -/
def unavailableRun (env : CameraEnv) (s : PageState) : PageState :=
  CameraPage.run s [PageEvent.activateStart, PageEvent.resolve (stream env).1]

/-- The run "stop during Starting": `start_stream` begins, `camera.stop` is
activated while `stream()` is still pending, and the outcome `r` arrives
afterwards. -/
def stopDuringStartingRun (s : PageState)
    (r : Except AshpdError (Option Int)) : PageState :=
  CameraPage.run s
    [PageEvent.activateStart, PageEvent.activateStop, PageEvent.resolve r]

/-! ## Screenshot page (`ashpd-demo/.../screenshot.rs`) -/

/-- The screenshot page's observable state: the two option switches, the
file the photo widget is set to (by its URI), and the revealer. -/
structure ScreenshotState where
  interactive_switch : Bool
  modal_switch : Bool
  screenshot_photo : Option String
  revealed : Bool
deriving DecidableEq, Repr

/-- The environment `ScreenshotPage::screenshot` runs against: the outcome
`screenshot::take(&identifier, interactive, modal)` would deliver for the
given flags. -/
structure ScreenshotEnv where
  take : Bool → Bool → Except AshpdError String

/-- `ScreenshotPage::screenshot`: read the two switches, call
`screenshot::take`; on `Ok(uri)` set the photo widget to the file for that
URI and reveal the child; on `Err` do nothing. -/
def ScreenshotPage.screenshot (env : ScreenshotEnv)
    (s : ScreenshotState) : ScreenshotState :=
  match env.take s.interactive_switch s.modal_switch with
  | .ok uri => { s with screenshot_photo := some uri, revealed := true }
  | .error _ => s

end Ashpd

namespace Ashpd

/-! ## Theorems about the specified properties -/

/-- C4: For every WallpaperOptions value in which only a subset of the
declared keys (show-preview, set-on) is Some, decoding the encoded mapping
yields an OptionSet containing exactly the keys that were present with the
same values — the round-trip law of the option codec. -/
theorem wallpaper_options_roundtrip (o : WallpaperOptions) :
    WallpaperOptions.decode (WallpaperOptions.encode o) = .ok o := by
  obtain ⟨sp, so⟩ := o
  cases so with
  | none => cases sp <;> rfl
  | some v => cases v <;> cases sp <;> rfl

/-- C5 (failing evaluation): the code serializes `SetOn` variants as their
capitalized variant identifiers, not as the lowercase tags the spec (and the
portal wire protocol) require, and it rejects the lowercase tag "lockscreen"
as an unknown variant. -/
theorem seton_serialization_not_lowercase :
    SetOn.serialize .Lockscreen = "Lockscreen"
    ∧ SetOn.serialize .Background = "Background"
    ∧ SetOn.serialize .Both = "Both"
    ∧ SetOn.serialize .Lockscreen ≠ "lockscreen"
    ∧ SetOn.deserialize "lockscreen" = .error .UnknownVariant
    ∧ SetOn.deserialize "gibberish" = .error .UnknownVariant := by
  refine ⟨rfl, rfl, rfl, ?_, rfl, rfl⟩
  decide

/-- C6: each optional field that is None is entirely omitted from the encoded
generic mapping — no key is emitted for it (in particular it is not encoded
as a null value). -/
theorem wallpaper_none_omitted (o : WallpaperOptions) :
    (o.show_preview = none →
      "show-preview" ∉ (WallpaperOptions.encode o).map Prod.fst)
    ∧ (o.set_on = none →
      "set-on" ∉ (WallpaperOptions.encode o).map Prod.fst) := by
  obtain ⟨sp, so⟩ := o
  constructor
  · intro h
    subst h
    cases so <;> simp [WallpaperOptions.encode]
  · intro h
    subst h
    cases sp <;> simp [WallpaperOptions.encode]

/-- Witness for C6 at the concrete all-absent option set: the encoded mapping
mentions neither declared key. -/
theorem wallpaper_none_omitted_witness :
    "show-preview" ∉ (WallpaperOptions.encode ⟨none, none⟩).map Prod.fst
    ∧ "set-on" ∉ (WallpaperOptions.encode ⟨none, none⟩).map Prod.fst :=
  ⟨(wallpaper_none_omitted ⟨none, none⟩).1 rfl,
   (wallpaper_none_omitted ⟨none, none⟩).2 rfl⟩

/-- C9: `open_pipe_wire_remote` is called only after the presence check
returned true and `access_camera` succeeded; and when `access_camera` fails,
`stream` propagates exactly that error, returns no file descriptor, and never
invokes `open_pipe_wire_remote`. -/
theorem camera_fd_after_checks (env : CameraEnv) (e : AshpdError) :
    (CamCall.openPipeWireRemote ∈ (stream env).2 →
      env.is_camera_present = .ok true ∧ env.access_camera = .ok ())
    ∧ (env.connection = .ok () → env.proxy = .ok () →
      env.is_camera_present = .ok true → env.access_camera = .error e →
      (stream env).1 = .error e
        ∧ CamCall.openPipeWireRemote ∉ (stream env).2) := by
  obtain ⟨c, p, pres, acc, opn⟩ := env
  cases c <;> cases p <;>
    rcases pres with e1 | (_ | _) <;> cases acc <;> cases opn <;>
    simp_all [stream]

/-- Witness for C9: with presence granted and `access_camera` failing with
code 3, `stream` returns that error and never asks for the pipewire fd. -/
theorem camera_fd_after_checks_witness :
    (stream ⟨.ok (), .ok (), .ok true, .error ⟨3⟩, .ok 5⟩).1 = .error ⟨3⟩
    ∧ CamCall.openPipeWireRemote ∉
      (stream ⟨.ok (), .ok (), .ok true, .error ⟨3⟩, .ok 5⟩).2 :=
  (camera_fd_after_checks ⟨.ok (), .ok (), .ok true, .error ⟨3⟩, .ok 5⟩
    ⟨3⟩).2 rfl rfl rfl rfl

/-- C1: while a start is in flight or a stream is live the `camera.start`
action is disabled, so a second activation of start is rejected (the handler
never runs): it changes nothing, begins no second `stream()` broker request,
and the first call's eventual resolution is unaffected; the outstanding
request count stays at one. -/
theorem camera_start_reentrancy (s : PageState)
    (r : Except AshpdError (Option Int))
    (h : s.startEnabled = true) (h0 : s.pendingCount = 0) :
    (CameraPage.step s .activateStart).startEnabled = false
    ∧ (CameraPage.step s .activateStart).pendingCount = 1
    ∧ (CameraPage.step s .activateStart).requestsIssued = s.requestsIssued + 1
    ∧ CameraPage.step (CameraPage.step s .activateStart) .activateStart
        = CameraPage.step s .activateStart
    ∧ CameraPage.run s [.activateStart, .activateStart, .resolve r]
        = CameraPage.run s [.activateStart, .resolve r] := by
  simp [CameraPage.step, CameraPage.run, start_stream_begin, h, h0]

/-- Witness for C1 on the freshly constructed page: the second start
activation is the identity and only one request is outstanding. -/
theorem camera_start_reentrancy_witness :
    CameraPage.step (CameraPage.step constructedState .activateStart)
        .activateStart
      = CameraPage.step constructedState .activateStart
    ∧ (CameraPage.step constructedState .activateStart).pendingCount = 1 :=
  ⟨(camera_start_reentrancy constructedState (.ok none) rfl rfl).2.2.2.1,
   (camera_start_reentrancy constructedState (.ok none) rfl rfl).2.1⟩

/-- C10: the constructed page has `camera.start` enabled and `camera.stop`
disabled; `start_stream` enables stop and disables start; `stop_stream`
disables stop and re-enables start; and in every reachable state exactly one
of the two actions is enabled. -/
theorem camera_action_exclusivity :
    (constructedState.startEnabled = true
      ∧ constructedState.stopEnabled = false)
    ∧ (∀ s : PageState, s.startEnabled = true →
      (CameraPage.step s .activateStart).stopEnabled = true
        ∧ (CameraPage.step s .activateStart).startEnabled = false)
    ∧ (∀ s : PageState,
      (stop_stream s).stopEnabled = false
        ∧ (stop_stream s).startEnabled = true)
    ∧ (∀ s : PageState, ReachableState s →
      s.startEnabled = !s.stopEnabled) := by
  refine ⟨⟨rfl, rfl⟩, ?_, ?_, ?_⟩
  · intro s h
    simp [CameraPage.step, start_stream_begin, h]
  · intro s
    exact ⟨rfl, rfl⟩
  · intro s hs
    induction hs with
    | init => rfl
    | next e hs ih =>
      rename_i t
      cases e with
      | activateStart =>
        cases h : t.startEnabled <;>
          simp_all [CameraPage.step, start_stream_begin]
      | activateStop =>
        cases h : t.stopEnabled <;>
          simp_all [CameraPage.step, stop_stream]
      | resolve r =>
        by_cases h : t.pendingCount = 0
        · simpa [CameraPage.step, h] using ih
        · cases r with
          | ok o =>
            cases o <;>
              simp_all [CameraPage.step, start_stream_resume, stop_stream]
          | error e1 =>
            simp_all [CameraPage.step, start_stream_resume, stop_stream]

/-- Witness for C10: after one start activation from the constructed page,
stop is enabled, start is disabled, and exclusivity holds in that reachable
state. -/
theorem camera_action_exclusivity_witness :
    ((CameraPage.step constructedState .activateStart).stopEnabled = true
      ∧ (CameraPage.step constructedState .activateStart).startEnabled = false)
    ∧ (CameraPage.step constructedState .activateStart).startEnabled
        = !(CameraPage.step constructedState .activateStart).stopEnabled :=
  ⟨camera_action_exclusivity.2.1 constructedState rfl,
   camera_action_exclusivity.2.2.2 _
     (ReachableState.next PageEvent.activateStart ReachableState.init)⟩

/-- C7: activating `camera.stop` while the page is Idle is a no-op that
leaves the state (hence Idle) unchanged; `stop();stop()` always has the same
effect as one `stop()`; and closing the paintable's pipeline is idempotent —
closing an already-closed pipeline is a no-op, not an error. -/
theorem camera_stop_idempotent (s t : PageState) (p : Option Int)
    (h : IdleState s) :
    CameraPage.step s .activateStop = s
    ∧ IdleState (CameraPage.step s .activateStop)
    ∧ CameraPage.step (CameraPage.step t .activateStop) .activateStop
        = CameraPage.step t .activateStop
    ∧ closePipeline (closePipeline p) = closePipeline p
    ∧ closePipeline none = none := by
  have h1 : CameraPage.step s .activateStop = s := by
    simp [CameraPage.step, h.2]
  refine ⟨h1, by rw [h1]; exact h, ?_, rfl, rfl⟩
  cases h2 : t.stopEnabled <;>
    simp [CameraPage.step, stop_stream, h2]

/-- Witness for C7 at the constructed page (and a concrete open pipeline):
stop from Idle is the identity and double close equals single close. -/
theorem camera_stop_idempotent_witness :
    CameraPage.step constructedState .activateStop = constructedState
    ∧ closePipeline (closePipeline (some 5)) = closePipeline (some 5) :=
  ⟨(camera_stop_idempotent constructedState constructedState (some 5)
      ⟨rfl, rfl⟩).1,
   (camera_stop_idempotent constructedState constructedState (some 5)
      ⟨rfl, rfl⟩).2.2.2.1⟩

/-- C2 (counterexample to the claim as stated): from the constructed page,
after `start`, then `stop` while the `stream()` call is still pending, a
later `Success` outcome carrying fd 7 IS handed to the UI — the paintable
receives the fd and the revealer is shown; the code does not drain or close
the late resource. -/
theorem camera_stop_race_counterexample :
    (stopDuringStartingRun constructedState (.ok (some 7))).paintableFd
        = some 7
    ∧ (stopDuringStartingRun constructedState (.ok (some 7))).revealed
        = true := by
  constructor <;> rfl

/-- C2 (amended): if `stop()` is activated while `start_stream`'s `stream()`
call is pending and the outcome later arrives as `Success` with a stream fd,
the `start_stream` continuation still runs in full: the fd is set on the
paintable, the child is revealed and the label set to "Yes" — the resource is
surfaced to the UI, not closed. -/
theorem camera_stop_race_amended (s : PageState) (fd : Int)
    (hs : IdleState s) :
    (stopDuringStartingRun s (.ok (some fd))).paintableFd = some fd
    ∧ (stopDuringStartingRun s (.ok (some fd))).revealed = true
    ∧ (stopDuringStartingRun s (.ok (some fd))).cameraAvailableLabel
        = "Yes" := by
  simp [stopDuringStartingRun, CameraPage.run, CameraPage.step,
    start_stream_begin, stop_stream, start_stream_resume, setPipewireFd,
    hs.1]

/-- Witness for the amended C2 at the constructed page with fd 9. -/
theorem camera_stop_race_amended_witness :
    (stopDuringStartingRun constructedState (.ok (some 9))).paintableFd
        = some 9
    ∧ (stopDuringStartingRun constructedState (.ok (some 9))).revealed
        = true :=
  ⟨(camera_stop_race_amended constructedState 9 ⟨rfl, rfl⟩).1,
   (camera_stop_race_amended constructedState 9 ⟨rfl, rfl⟩).2.1⟩

/-- C3 (counterexample to the claim as stated): when the availability check
reports no camera, the page does NOT resolve back to the Idle action
configuration — `camera.start` stays disabled and `camera.stop` stays
enabled after the `Ok(None)` outcome. -/
theorem camera_unavailable_not_idle :
    ¬ IdleState (CameraPage.run constructedState
      [PageEvent.activateStart, PageEvent.resolve (.ok none)]) := by
  intro h
  exact absurd h.1 (by decide)

/-- C3 (amended): when `is_camera_present` reports false, `stream` returns
`Ok(None)` without ever calling `access_camera` or `open_pipe_wire_remote`;
the page sets the label to "No", logs no error, touches neither the
paintable nor the revealer — but it does not return to the Idle action
configuration: start stays disabled and stop stays enabled. -/
theorem camera_unavailable_amended (env : CameraEnv) (s : PageState)
    (hc : env.connection = .ok ()) (hp : env.proxy = .ok ())
    (hn : env.is_camera_present = .ok false)
    (hs : IdleState s) (h0 : s.pendingCount = 0) :
    (stream env).1 = .ok none
    ∧ CamCall.accessCamera ∉ (stream env).2
    ∧ CamCall.openPipeWireRemote ∉ (stream env).2
    ∧ (unavailableRun env s).cameraAvailableLabel = "No"
    ∧ (unavailableRun env s).errorLogged = s.errorLogged
    ∧ (unavailableRun env s).paintableFd = s.paintableFd
    ∧ (unavailableRun env s).revealed = s.revealed
    ∧ (unavailableRun env s).startEnabled = false
    ∧ (unavailableRun env s).stopEnabled = true := by
  obtain ⟨c, p, pres, acc, opn⟩ := env
  simp only at hc hp hn
  subst hc hp hn
  refine ⟨rfl, by simp [stream], by simp [stream], ?_⟩
  simp [unavailableRun, CameraPage.run, CameraPage.step, stream,
    start_stream_begin, start_stream_resume, hs.1, h0]

/-- Witness for the amended C3 at a concrete environment (camera absent) and
the constructed page. -/
theorem camera_unavailable_amended_witness :
    (stream ⟨.ok (), .ok (), .ok false, .ok (), .ok 9⟩).1 = .ok none
    ∧ CamCall.accessCamera ∉
        (stream ⟨.ok (), .ok (), .ok false, .ok (), .ok 9⟩).2
    ∧ CamCall.openPipeWireRemote ∉
        (stream ⟨.ok (), .ok (), .ok false, .ok (), .ok 9⟩).2
    ∧ (unavailableRun ⟨.ok (), .ok (), .ok false, .ok (), .ok 9⟩
        constructedState).cameraAvailableLabel = "No"
    ∧ (unavailableRun ⟨.ok (), .ok (), .ok false, .ok (), .ok 9⟩
        constructedState).errorLogged = constructedState.errorLogged
    ∧ (unavailableRun ⟨.ok (), .ok (), .ok false, .ok (), .ok 9⟩
        constructedState).paintableFd = constructedState.paintableFd
    ∧ (unavailableRun ⟨.ok (), .ok (), .ok false, .ok (), .ok 9⟩
        constructedState).revealed = constructedState.revealed
    ∧ (unavailableRun ⟨.ok (), .ok (), .ok false, .ok (), .ok 9⟩
        constructedState).startEnabled = false
    ∧ (unavailableRun ⟨.ok (), .ok (), .ok false, .ok (), .ok 9⟩
        constructedState).stopEnabled = true :=
  camera_unavailable_amended ⟨.ok (), .ok (), .ok false, .ok (), .ok 9⟩
    constructedState rfl rfl rfl ⟨rfl, rfl⟩ rfl

/-- C8: whenever the `screenshot::take` invocation for the page's current
switch settings completes with `Ok(uri)`, the photo widget is set to the file
for exactly that URI and the reveal state becomes visible. -/
theorem screenshot_success_sets_photo (env : ScreenshotEnv)
    (s : ScreenshotState) (uri : String)
    (h : env.take s.interactive_switch s.modal_switch = .ok uri) :
    (ScreenshotPage.screenshot env s).screenshot_photo = some uri
    ∧ (ScreenshotPage.screenshot env s).revealed = true := by
  simp [ScreenshotPage.screenshot, h]

/-- Witness for C8: interactive=true, modal=false, broker answers with
file:///tmp/shot.png — the photo widget gets that URI and the page reveals. -/
theorem screenshot_success_sets_photo_witness :
    (ScreenshotPage.screenshot ⟨fun _ _ => .ok "file:///tmp/shot.png"⟩
      ⟨true, false, none, false⟩).screenshot_photo
        = some "file:///tmp/shot.png"
    ∧ (ScreenshotPage.screenshot ⟨fun _ _ => .ok "file:///tmp/shot.png"⟩
      ⟨true, false, none, false⟩).revealed = true :=
  screenshot_success_sets_photo ⟨fun _ _ => .ok "file:///tmp/shot.png"⟩
    ⟨true, false, none, false⟩ "file:///tmp/shot.png" rfl

end Ashpd
